import Mathlib

set_option maxRecDepth 4000

/-
Shallow embedding of `cloudflare_cookie_fetcher.py` (class CloudflareCookieFetcher).

Conventions used throughout:
* Python strings are Lean `String` (a wrapper around `List Char`); Python substring
  tests (`t in s`), `str.endswith` and `str.lower()` are embedded by executable
  helpers below.
* Browser/page primitives (locator counts, visibility probes, clicks, navigation)
  are abstracted as fields of "page model" structures; each primitive yields
  `Except String α`: `Except.error e` models the call raising a Python exception
  with message `e`, `Except.ok a` a normal return.  Loops over fixed selector
  lists are embedded as fuel recursion over the selector index.
* A Python `try/except` is embedded as a `match` on the `Except` value of the
  guarded computation.
* Cookie `expires` values are embedded as `Int` (the claims under study do not
  depend on the float-ness of expiry timestamps).
-/

/-- Occurrence test for a pattern inside a character list: embeds the Python
substring operator `pat in l` (`True` when `pat` is empty). -/
def listContains (pat : List Char) : List Char → Bool
  | [] => pat.isEmpty
  | c :: rest => pat.isPrefixOf (c :: rest) || listContains pat rest

/-- Python `t in s` on strings. -/
def strContains (s t : String) : Bool :=
  listContains t.data s.data

/-- Suffix test on character lists, by comparing with the final segment. -/
def listEndsWith (pat l : List Char) : Bool :=
  pat == l.drop (l.length - pat.length)

/-- Python `s.endswith(t)`. -/
def endsWithStr (s t : String) : Bool :=
  listEndsWith t.data s.data

/-- Python `s.lower()` (ASCII behaviour, which is all the source compares). -/
def pyLower (s : String) : String :=
  String.mk (s.data.map Char.toLower)

/-- Python `str(bool)` as interpolated by an f-string. -/
def pyBool : Bool → String
  | true => "True"
  | false => "False"

/-- Concatenation of a list of strings (used to state serializer layout). -/
def joinAll : List String → String
  | [] => ""
  | s :: rest => s ++ joinAll rest

/-- A browser cookie record as consumed by `extract_cookies` /
`save_cookies_to_file`: the values of `cookie.get('name','')`,
`cookie.get('value','')`, `cookie.get('domain','')`, `cookie.get('path','/')`,
`cookie.get('secure',False)` and `cookie.get('expires',-1)`. -/
structure Cookie where
  name : String
  value : String
  domain : String
  path : String
  secure : Bool
  expires : Int
deriving DecidableEq

/-- The domain filter `'cloudflare.com' in cookie.get('domain', '')` used by
both `extract_cookies` (line 795) and `save_cookies_to_file` (line 814). -/
def isDomainMatch (c : Cookie) : Bool :=
  strContains c.domain "cloudflare.com"

/-- A cookie that survives the domain filter and has non-empty name and value
(`if name and value`, line 827), hence contributes a `name=value` pair. -/
def isQualifying (c : Cookie) : Bool :=
  isDomainMatch c && (decide (c.name ≠ "") && decide (c.value ≠ ""))

/-- The domain-filtered cookie list `cloudflare_cookies` of
`save_cookies_to_file` (lines 812-815). -/
def domainCookies (cs : List Cookie) : List Cookie :=
  cs.filter isDomainMatch

/-- The cookies that contribute `name=value` pairs to the joined line. -/
def qualifyingCookies (cs : List Cookie) : List Cookie :=
  cs.filter isQualifying

/-- Python `'; '.join(pairs)` (line 832). -/
def joinPairs : List String → String
  | [] => ""
  | [s] => s
  | s :: rest => s ++ "; " ++ joinPairs rest

/-- One annotated reference comment line of the `# Individual cookies` section
(line 848). -/
def refLine (c : Cookie) : String :=
  "# " ++ c.name ++ "=" ++ c.value ++ " (domain: " ++ c.domain ++ ", path: " ++
    c.path ++ ", secure: " ++ pyBool c.secure ++ ", expires: " ++
    toString c.expires ++ ")"

/-- The `cookie_pairs` accumulation loop of `save_cookies_to_file`
(lines 823-828): iterate the domain-filtered cookies, appending
`f"{name}={value}"` whenever both name and value are truthy. -/
def cookiePairsOf (cookies : List Cookie) : List String :=
  (cookies.filter isDomainMatch).foldl
    (fun acc c =>
      if c.name ≠ "" ∧ c.value ≠ "" then acc ++ [c.name ++ "=" ++ c.value]
      else acc) []

/-- The full text written by `save_cookies_to_file` (lines 806-848), assembled
in the order of the `f.write` calls; `ts` is `datetime.now().isoformat()`. -/
def save_cookies_to_file (ts : String) (cookies : List Cookie) : String :=
  let cloudflareCookies := cookies.filter isDomainMatch
  let cookiePairs := cookiePairsOf cookies
  let out := "# Cloudflare Cookies - curl -b format\n"
  let out := out ++ ("# Generated on: " ++ ts ++ "\n")
  let out := out ++ "# Usage: curl -b \"$(cat cf-cookies.txt)\" https://dash.cloudflare.com/api/v4/graphql\n\n"
  let out :=
    if cookiePairs ≠ [] then out ++ joinPairs cookiePairs ++ "\n"
    else out ++ "# No Cloudflare cookies found\n"
  let out := out ++ "\n# Individual cookies (for reference):\n"
  cloudflareCookies.foldl (fun acc c => acc ++ (refLine c ++ "\n")) out

/-- The file layout exactly as claim C1 words it (a definition following the
claim, for comparison with `save_cookies_to_file`): qualifying means non-empty
name and value only, and the reference section lists only qualifying cookies. -/
def claimC1Layout (ts : String) (cookies : List Cookie) : String :=
  let qualifying := cookies.filter (fun c => decide (c.name ≠ "") && decide (c.value ≠ ""))
  "# Cloudflare Cookies - curl -b format\n" ++
    ("# Generated on: " ++ ts ++ "\n") ++
    "# Usage: curl -b \"$(cat cf-cookies.txt)\" https://dash.cloudflare.com/api/v4/graphql\n\n" ++
    (if qualifying = [] then "# No Cloudflare cookies found\n"
     else joinPairs (qualifying.map (fun c => c.name ++ "=" ++ c.value)) ++ "\n") ++
    "\n# Individual cookies (for reference):\n" ++
    joinAll (qualifying.map (fun c => refLine c ++ "\n"))

/-- Prepend a character to the first chunk of a split result. -/
def consHead (c : Char) : List (List Char) → List (List Char)
  | [] => [[c]]
  | p :: ps => (c :: p) :: ps

/-- Python `s.split('; ')` on character lists: leftmost-first scan for the
two-character separator. -/
def splitSemi : List Char → List (List Char)
  | [] => [[]]
  | [c] => [[c]]
  | c :: d :: rest =>
    if c = ';' ∧ d = ' ' then [] :: splitSemi rest
    else consHead c (splitSemi (d :: rest))

/-- Intercalation with the separator `"; "` on character lists (the char-level
counterpart of `joinPairs`). -/
def joinSemi : List (List Char) → List Char
  | [] => []
  | [p] => p
  | p :: rest => p ++ ';' :: ' ' :: joinSemi rest

/-- Occurrence test for the separator `"; "` inside a character list. -/
def hasSemiSep : List Char → Bool
  | [] => false
  | [_] => false
  | c :: d :: rest =>
    if c = ';' ∧ d = ' ' then true else hasSemiSep (d :: rest)

/-- Split a chunk at the first `'='` (Python `t.split('=', 1)`): name before
it, value after it. -/
def parsePairL (l : List Char) : List Char × List Char :=
  (l.takeWhile (fun c => !decide (c = '=')),
   (l.dropWhile (fun c => !decide (c = '='))).drop 1)

/-- Parse the joined-pairs line of the cookie bundle back into `(name, value)`
pairs: split on `"; "`, then split each chunk at its first `'='`. -/
def parseCookieLine (s : String) : List (String × String) :=
  (splitSemi s.data).map
    (fun l => (String.mk (parsePairL l).1, String.mk (parsePairL l).2))

/-- The body of `extract_cookies` (lines 784-804): `page.context.cookies()` is
abstracted as an `Except` value (a raised exception is logged and re-raised,
line 804); on success the list is filtered by the domain test. -/
def extract_cookies (cookiesRes : Except String (List Cookie)) :
    Except String (List Cookie) :=
  match cookiesRes with
  | Except.error e => Except.error e
  | Except.ok cookies => Except.ok (cookies.filter isDomainMatch)

/-- The cookie list carried by a successful extraction result (empty on a
raised extraction); used to state membership properties of
`extract_cookies`. -/
def extractedList (r : Except String (List Cookie)) : List Cookie :=
  match r with
  | Except.ok l => l
  | Except.error _ => []

/-- Outcome of probing one submit-selector candidate when at least one element
matches (`locator.count() > 0`): visibility of `locator.first` and its
disabled state. -/
structure ElemInfo where
  visible : Bool
  disabled : Bool

/-- Page model for the submit-button search of `perform_automatic_login`
(lines 664-689): for candidate index `i` of `submit_selectors`,
`probe i = Except.ok none` models `count() == 0`, `Except.ok (some info)`
models a matched first element with the given visible/disabled answers, and
`Except.error e` models any of the locator calls raising (the bare `except`
then moves on to the next candidate). -/
structure SubmitPage where
  probe : Nat → Except String (Option ElemInfo)

/-- Candidate `i` satisfies the submit-button constraints of line 679:
an element exists, is visible, and is not disabled. -/
def submitQualifies (p : SubmitPage) (i : Nat) : Prop :=
  ∃ info, p.probe i = Except.ok (some info) ∧
    info.visible = true ∧ info.disabled = false

/-- The `for selector in submit_selectors` loop (lines 676-684), as fuel
recursion from candidate index `k`: first candidate that exists, is visible
and is enabled wins; probe exceptions and non-qualifying candidates are
skipped. -/
def findSubmitFrom (p : SubmitPage) : Nat → Nat → Option Nat
  | _, 0 => none
  | k, n + 1 =>
    match p.probe k with
    | Except.ok (some info) =>
      if info.visible && !info.disabled then some k
      else findSubmitFrom p (k + 1) n
    | _ => findSubmitFrom p (k + 1) n

/-- The submit search over the 7 entries of `submit_selectors`. -/
def findSubmit (p : SubmitPage) : Option Nat :=
  findSubmitFrom p 0 7

/-- Lines 686-689: if no candidate qualified, raise
`Exception("Submit button not found or disabled")`. -/
def submitSearch (p : SubmitPage) : Except String Nat :=
  match findSubmit p with
  | some i => Except.ok i
  | none => Except.error "Submit button not found or disabled"

/-- The marker-scanning loop shared by `check_login_status` (lines 170-176)
and the verification pass of `perform_automatic_login` (lines 747-755):
probe indicator `k`; `Except.ok true` (count > 0 and first visible) stops the
scan, anything else — including a raised exception — skips to the next
indicator. -/
def anyVisibleFrom (probe : Nat → Except String Bool) : Nat → Nat → Bool
  | _, 0 => false
  | k, n + 1 =>
    match probe k with
    | Except.ok true => true
    | _ => anyVisibleFrom probe (k + 1) n

/-- The login-verification pass of `perform_automatic_login` (lines 744-777):
marker scan over the 12 `success_selectors`, the dashboard-URL pattern check
(lines 761-764), the still-on-login override (lines 767-769), and the final
raise with the offending URL embedded (line 777). -/
def verifyLoginSuccess (probe : Nat → Except String Bool) (url : String) :
    Except String Unit :=
  let markerFound := anyVisibleFrom probe 0 12
  let low := pyLower url
  let onLogin := strContains low "login" || strContains low "sign-in"
  let urlSuccess :=
    if strContains url "dash.cloudflare.com" && !onLogin then
      strContains url "dashboard" || strContains url "overview" ||
        endsWithStr url "dash.cloudflare.com/"
    else false
  let success0 := markerFound || urlSuccess
  let success := if onLogin then false else success0
  if success then Except.ok ()
  else Except.error ("Login failed - still on login page: " ++ url)

/-- Page model for `check_login_status`: probes of the 12 `login_indicators`
(each may raise), and the `page.url` read (which may also raise; that lands in
the outer except, line 196). -/
structure LoginPage where
  probe : Nat → Except String Bool
  pageUrl : Except String String

/-- The URL-pattern decision of `check_login_status` (lines 179-194): the
dashboard-shape test guarded by a not-on-login check, then the explicit
on-login test, then the "status unclear" fallthrough. -/
def urlLoginDecision (url : String) : Bool :=
  let low := pyLower url
  let onLogin := strContains low "login" || strContains low "sign-in"
  if strContains url "dash.cloudflare.com" && !onLogin then
    if strContains url "dashboard" || strContains url "overview" ||
        endsWithStr url "dash.cloudflare.com/" || strContains url "/zones/" then
      true
    else if onLogin then false
    else false
  else if onLogin then false
  else false

/-- `check_login_status` (lines 148-198): indicator scan, then the URL checks;
the outer `except` (lines 196-198) converts any unhandled exception — here the
`page.url` read — into `False`. -/
def check_login_status (p : LoginPage) : Bool :=
  if anyVisibleFrom p.probe 0 12 then true
  else
    match p.pageUrl with
    | Except.error _ => false
    | Except.ok url => urlLoginDecision url

/-- Frame model for `_check_challenge_progress` (lines 279-319): the 7
success-selector probes (each `count() > 0 and is_visible()`, may raise), and
the two counting queries of the second `try` block. -/
structure FrameProbe where
  successSel : Nat → Except String Bool
  checkedCount : Except String Nat
  loadingCount : Except String Nat

/-- The success-selector loop of `_check_challenge_progress` (lines 293-298):
exceptions and misses skip to the next selector. -/
def progressSelFrom (f : FrameProbe) : Nat → Nat → Bool
  | _, 0 => false
  | k, n + 1 =>
    match f.successSel k with
    | Except.ok true => true
    | _ => progressSelFrom f (k + 1) n

/-- The checked-checkbox / loading-indicator counting block (lines 301-313):
a raise anywhere in it falls to `pass` and the function goes on to return
`False`. -/
def progressCounts (f : FrameProbe) : Bool :=
  match f.checkedCount with
  | Except.error _ => false
  | Except.ok ch =>
    if ch > 0 then true
    else
      match f.loadingCount with
      | Except.error _ => false
      | Except.ok ld => ld > 0

/-- `_check_challenge_progress` (lines 279-319): total — every internal raise
is swallowed by one of its own handlers. -/
def check_challenge_progress (f : FrameProbe) : Bool :=
  if progressSelFrom f 0 7 then true else progressCounts f

/-- Per-iframe context model for `handle_cloudflare_challenge`.  For iframe
selector `i`: `frameHandle` is `iframe.first.content_frame()` (ok true = a
frame handle, ok false = `None`, error = raised); `selFound j` is the
`count() > 0` probe of checkbox selector `j < 9`; `wildcardFound` is the
last-resort `"*"` keyword scan (line 412-425); `waitVisible`/`elemVisible` are
`found_element.wait_for(state="visible")` and `found_element.is_visible()`;
`clickAttempt j m` is click method `m < 5` on the element found at selector
`j`; `progressProbe j m` is the frame state checked right after that click;
`centerBox`/`centerClick` model the fallback center-of-iframe click (lines
487-496); `finalSuccess k` probes the 5 post-click success selectors;
`stillVisible t` is the `page.locator(iframe_selector).is_visible()` poll of
iteration `t` (lines 527-532), the one probe in this region without its own
handler; `debugDump`/`enumDump` are the two swallowed debug blocks. -/
structure IframeCtx where
  frameHandle : Except String Bool
  debugDump : Except String Unit
  enumDump : Except String Unit
  selFound : Nat → Except String Bool
  wildcardFound : Except String Bool
  waitVisible : Nat → Except String Unit
  elemVisible : Nat → Except String Bool
  clickAttempt : Nat → Nat → Except String Unit
  progressProbe : Nat → Nat → FrameProbe
  centerBox : Except String Bool
  centerClick : Except String Unit
  finalSuccess : Nat → Except String Bool
  stillVisible : Nat → Except String Bool

/-- The click-method loop (lines 442-471) for the element found at selector
`j`: try each of the 5 methods in order; a raising method is skipped
(lines 469-471), and the loop stops at the first method after which
`_check_challenge_progress` reports progress. -/
def tryClickFrom (c : IframeCtx) (j : Nat) : Nat → Nat → Bool
  | _, 0 => false
  | m, n + 1 =>
    match c.clickAttempt j m with
    | Except.error _ => tryClickFrom c j (m + 1) n
    | Except.ok _ =>
      if check_challenge_progress (c.progressProbe j m) then true
      else tryClickFrom c j (m + 1) n

/-- One iteration of the checkbox-selector loop (lines 407-482) for selector
`j`, carrying the `found_element` state (`found`, the selector index whose
element is currently held — the source never resets it, so a stale element is
re-used when a later selector matches nothing).  Returns
`(checkbox_clicked, new found)`.  The selector-level `except` (lines 480-482)
catches find-step raises; the inner `try` (lines 433-478) catches
wait/visibility raises; both continue with the next selector. -/
def selIter (c : IframeCtx) (found : Option Nat) (j : Nat) : Bool × Option Nat :=
  let findRes : Except String (Option Nat) :=
    if j = 9 then
      match c.wildcardFound with
      | Except.error e => Except.error e
      | Except.ok b => Except.ok (if b then some j else found)
    else
      match c.selFound j with
      | Except.error e => Except.error e
      | Except.ok b => Except.ok (if b then some j else found)
  match findRes with
  | Except.error _ => (false, found)
  | Except.ok none => (false, none)
  | Except.ok (some k) =>
    match c.waitVisible k with
    | Except.error _ => (false, some k)
    | Except.ok _ =>
      match c.elemVisible k with
      | Except.error _ => (false, some k)
      | Except.ok false => (false, some k)
      | Except.ok true => (tryClickFrom c k 0 5, some k)

/-- The checkbox-selector loop over the 10 `checkbox_selectors` (index 9 is
the `"*"` wildcard), threading `found_element`. -/
def selLoopFrom (c : IframeCtx) : Option Nat → Nat → Nat → Bool
  | _, _, 0 => false
  | found, j, n + 1 =>
    match selIter c found j with
    | (true, _) => true
    | (false, f2) => selLoopFrom c f2 (j + 1) n

/-- The generic-iframe-click fallback (lines 484-496): inside its own `try`,
read the bounding box; if truthy, click its center and set
`checkbox_clicked = True`; a raise anywhere leaves it `False`. -/
def centerFallback (c : IframeCtx) : Bool :=
  match c.centerBox with
  | Except.error _ => false
  | Except.ok false => false
  | Except.ok true =>
    match c.centerClick with
    | Except.error _ => false
    | Except.ok _ => true

/-- The post-click success-indicator loop (lines 514-523): probes of the 5
`success_selectors`; raises and misses skip to the next one. -/
def finalSuccessFrom (c : IframeCtx) : Nat → Nat → Bool
  | _, 0 => false
  | k, n + 1 =>
    match c.finalSuccess k with
    | Except.ok true => true
    | _ => finalSuccessFrom c (k + 1) n

/-- The 30-iteration disappearance poll (lines 527-532): `ok true` when the
iframe vanished within the bound; the visibility probe has no local handler,
so its raise propagates (to the per-iframe-selector `except`). -/
def pollGoneFrom (c : IframeCtx) : Nat → Nat → Except String Bool
  | _, 0 => Except.ok false
  | t, n + 1 =>
    match c.stillVisible t with
    | Except.error e => Except.error e
    | Except.ok vis =>
      if vis then pollGoneFrom c (t + 1) n else Except.ok true

/-- Control signal of one iframe-selector iteration: `ret` models the
function-level `return` statements (lines 537, 541), `next` models falling
through to the next iframe selector. -/
inductive ChallengeSignal
  | ret
  | next

/-- Page model for `handle_cloudflare_challenge`: the 4 iframe-selector
visibility probes (line 341, inside the per-selector `try`), the per-iframe
contexts, the 4 inline `challenge_selectors` visibility probes (line 559, no
local handler), and the wait-until-hidden step (lines 564-565, no local
handler). -/
structure ChallengePage where
  iframeVisible : Nat → Except String Bool
  ctx : Nat → IframeCtx
  inlineVisible : Nat → Except String Bool
  inlineWaitHidden : Nat → Except String Unit

/-- The body of one iframe-selector iteration (lines 339-545): detection,
frame entry, the two swallowed debug blocks, the checkbox-selector loop, the
center-click fallback, and the resolution confirmation, ending in `return`
(`ret`) whenever a click happened. -/
def iframeIter (p : ChallengePage) (i : Nat) : Except String ChallengeSignal :=
  match p.iframeVisible i with
  | Except.error e => Except.error e
  | Except.ok false => Except.ok ChallengeSignal.next
  | Except.ok true =>
    let c := p.ctx i
    match c.frameHandle with
    | Except.error e => Except.error e
    | Except.ok false => Except.ok ChallengeSignal.next
    | Except.ok true =>
      let _ := c.debugDump
      let _ := c.enumDump
      let clicked0 := selLoopFrom c none 0 10
      let clicked := if clicked0 then true else centerFallback c
      if clicked then
        if finalSuccessFrom c 0 5 then Except.ok ChallengeSignal.ret
        else
          match pollGoneFrom c 0 30 with
          | Except.error e => Except.error e
          | Except.ok _ => Except.ok ChallengeSignal.ret
      else Except.ok ChallengeSignal.next

/-- The `for iframe_selector in iframe_selectors` loop (lines 338-548): a
raise inside an iteration is caught by the per-selector `except` and the loop
continues with the next selector. -/
def iframeLoopFrom (p : ChallengePage) : Nat → Nat → ChallengeSignal
  | _, 0 => ChallengeSignal.next
  | i, n + 1 =>
    match iframeIter p i with
    | Except.error _ => iframeLoopFrom p (i + 1) n
    | Except.ok ChallengeSignal.ret => ChallengeSignal.ret
    | Except.ok ChallengeSignal.next => iframeLoopFrom p (i + 1) n

/-- The inline-challenge loop over the 4 `challenge_selectors`
(lines 558-569): the visibility probe and the wait-until-hidden steps have no
local handler, so their raises propagate to the outer handler. -/
def inlineLoopFrom (p : ChallengePage) : Nat → Nat → Except String Unit
  | _, 0 => Except.ok ()
  | k, n + 1 =>
    match p.inlineVisible k with
    | Except.error e => Except.error e
    | Except.ok true => p.inlineWaitHidden k
    | Except.ok false => inlineLoopFrom p (k + 1) n

/-- The body of `handle_cloudflare_challenge` inside the outer `try`
(lines 323-571). -/
def challengeBody (p : ChallengePage) : Except String Unit :=
  match iframeLoopFrom p 0 4 with
  | ChallengeSignal.ret => Except.ok ()
  | ChallengeSignal.next => inlineLoopFrom p 0 4

/-- `handle_cloudflare_challenge` (lines 321-576): the outer `except`
(lines 573-576) logs a warning, takes a screenshot (itself total) and returns
normally — "Continue anyway as challenge might have resolved". -/
def handle_cloudflare_challenge (p : ChallengePage) : Except String Unit :=
  match challengeBody p with
  | Except.ok _ => Except.ok ()
  | Except.error _ => Except.ok ()

/-- Environment for `simulate_human_mouse_movement` (lines 218-260): `steps`
is the computed waypoint count (`max(10, distance / 20)`); `pathMove i` is the
`page.mouse.move` call at waypoint `i`; `finalMove` is the final precise
`page.mouse.move(target_x, target_y)` inside the `try`; `fallbackMove` is the
direct `page.mouse.move(target_x, target_y)` of the `except` branch
(line 260).  The waypoint geometry (sinusoidal curve, jitter) does not affect
the exception flow under study and is left inside the abstract move calls. -/
structure MouseEnv where
  steps : Nat
  pathMove : Nat → Except String Unit
  finalMove : Except String Unit
  fallbackMove : Except String Unit

/-- The waypoint loop (lines 233-252): the moves run in order and any raise
aborts the rest of the path. -/
def runPathFrom (env : MouseEnv) : Nat → Nat → Except String Unit
  | _, 0 => Except.ok ()
  | i, n + 1 =>
    match env.pathMove i with
    | Except.error e => Except.error e
    | Except.ok _ => runPathFrom env (i + 1) n

/-- The `try` body of `simulate_human_mouse_movement`: the waypoint loop, then
the final precise move (line 255). -/
def simulateBody (env : MouseEnv) : Except String Unit :=
  match runPathFrom env 0 env.steps with
  | Except.error e => Except.error e
  | Except.ok _ => env.finalMove

/-- `simulate_human_mouse_movement` (lines 218-260): on any raise in the path
body, log at debug level and fall back to the direct move — whose own outcome
is whatever `page.mouse.move` then does. -/
def simulate_human_mouse_movement (env : MouseEnv) : Except String Unit :=
  match simulateBody env with
  | Except.ok _ => Except.ok ()
  | Except.error _ => env.fallbackMove

/-- The externally observable steps of `run` (lines 856-945) that the claims
talk about. -/
inductive RunStep
  | navigate
  | checkLogin
  | challenge
  | login
  | saveState
  | extract
  | saveFile
deriving DecidableEq

/-- Environment for `run`: outcomes of the fallible steps, the
`check_login_status` answer (total, see `check_login_status`), the configured
credentials (`os.getenv` results: `none` = unset), and the persistence flag.
Browser/context construction (lines 861-897) performs no step the claims
mention and is not tracked. -/
structure RunEnv where
  navigateRes : Except String Unit
  loggedIn : Bool
  username : Option String
  password : Option String
  loginRes : Except String Unit
  persistentProfile : Bool
  saveStateRes : Except String Unit
  extractRes : Except String (List Cookie)
  saveFileRes : Except String Unit

/-- Python truthiness of an optional credential string: unset and empty are
falsy (`if self.username and self.password`, line 912). -/
def pyTruthy : Option String → Bool
  | none => false
  | some s => decide (s ≠ "")

/-- Steps 4-5 of `run` (lines 931-936): extract cookies (a raise propagates),
then save them to file (a raise propagates). -/
def runExtractPhase (env : RunEnv) (t : List RunStep) :
    List RunStep × Option String :=
  match env.extractRes with
  | Except.error e => (t ++ [RunStep.extract], some e)
  | Except.ok _ =>
    match env.saveFileRes with
    | Except.error e => (t ++ [RunStep.extract, RunStep.saveFile], some e)
    | Except.ok _ => (t ++ [RunStep.extract, RunStep.saveFile], none)

/-- `run` (lines 856-945) as a step trace plus the propagated exception, if
any: navigate (fatal on raise), check login status, and — only when not
already logged in — challenge handling (total, per
`handle_cloudflare_challenge`), then either automated login (when both
credentials are truthy, with best-effort session save afterwards) or the
`"Login credentials required but not provided"` raise; finally extraction and
serialization. -/
def runProc (env : RunEnv) : List RunStep × Option String :=
  match env.navigateRes with
  | Except.error e => ([RunStep.navigate], some e)
  | Except.ok _ =>
    let t := [RunStep.navigate, RunStep.checkLogin]
    if env.loggedIn then runExtractPhase env t
    else
      let t := t ++ [RunStep.challenge]
      if pyTruthy env.username && pyTruthy env.password then
        match env.loginRes with
        | Except.error e => (t ++ [RunStep.login], some e)
        | Except.ok _ =>
          let t := t ++ [RunStep.login]
          let t := if env.persistentProfile then t ++ [RunStep.saveState] else t
          runExtractPhase env t
      else (t, some "Login credentials required but not provided")

/-- Counterexample input for the serializer layout claim: a domain-matching
cookie with an empty value, plus a qualifying-by-name-and-value cookie whose
domain does not match. -/
def cexEmptyValueCookie : Cookie := ⟨"a", "", ".cloudflare.com", "/", false, -1⟩

/-- A cookie with non-empty name and value on a non-Cloudflare domain. -/
def cexForeignCookie : Cookie := ⟨"b", "c", "example.com", "/", false, -1⟩

/-- Counterexample input for the suffix-match claim: the domain merely
contains `cloudflare.com` as a substring. -/
def cexSubdomainCookie : Cookie := ⟨"a", "b", "cloudflare.com.evil.io", "/", false, -1⟩

/-- Counterexample input for the round-trip claim: the value embeds the pair
separator and an equals sign. -/
def cexSemiCookie : Cookie := ⟨"a", "b; c=d", ".cloudflare.com", "/", false, -1⟩

/-- A well-behaved qualifying cookie for the round-trip witness. -/
def wRoundCookie : Cookie := ⟨"cf_clearance", "abc123", "dash.cloudflare.com", "/", true, 5⟩

/-- A cookie whose domain ends with the configured suffix. -/
def wCfCookie : Cookie := ⟨"sess", "v1", "api.cloudflare.com", "/", true, 0⟩

/-- A cookie on an unrelated domain. -/
def wOtherCookie : Cookie := ⟨"oth", "v2", "example.org", "/", false, 0⟩

/-- Witness input list for the domain-filter theorem. -/
def wExtractList : List Cookie := [wCfCookie, wOtherCookie]

/-- A page on which every mouse move raises (e.g. the page was closed). -/
def cexMouseEnv : MouseEnv :=
  ⟨10, fun _ => Except.error "page closed", Except.error "page closed",
    Except.error "page closed"⟩

/-- A page on which the path moves raise but the direct fallback move works. -/
def wMouseEnv : MouseEnv :=
  ⟨1, fun _ => Except.error "detached", Except.ok (), Except.ok ()⟩

/-- Scenario B of the spec: candidate 0 (`button[type=submit]`) is visible but
disabled, candidate 1 matches nothing, candidate 2 (the text-based login
button) is visible and enabled. -/
def wSubmitPage : SubmitPage :=
  ⟨fun i =>
    if i = 0 then Except.ok (some ⟨true, true⟩)
    else if i = 2 then Except.ok (some ⟨true, false⟩)
    else Except.ok none⟩

/-- A post-submission URL still on the login page. -/
def wVerifyUrl : String := "https://dash.cloudflare.com/login"

/-- A page on which every indicator probe and the URL read raise. -/
def wLoginPage : LoginPage :=
  ⟨fun _ => Except.error "boom", Except.error "no page"⟩

/-- A run environment with an already-authenticated session. -/
def wRunEnvAuth : RunEnv :=
  ⟨Except.ok (), true, none, none, Except.ok (), false, Except.ok (),
    Except.ok [], Except.ok ()⟩

/-- A run environment with no session and a missing username. -/
def wRunEnvNoCreds : RunEnv :=
  ⟨Except.ok (), false, none, some "pw", Except.ok (), true, Except.ok (),
    Except.ok [], Except.ok ()⟩

/-
Theorems.  General-purpose string/list bridging lemmas come first, then the
claim theorems with their witnesses and counterexamples.
-/

/-- Appending strings appends their character data. -/
theorem strData_append (s t : String) : (s ++ t).data = s.data ++ t.data := by
  cases s; cases t; rfl

/-- Strings with equal character data are equal. -/
theorem strExt {s t : String} (h : s.data = t.data) : s = t := by
  cases s; cases t; exact congrArg String.mk h

/-- Rebuilding a string from its own data is the identity. -/
theorem strMk_data (s : String) : String.mk s.data = s := rfl

/-- String append is associative. -/
theorem strAppend_assoc (s t u : String) : s ++ t ++ u = s ++ (t ++ u) :=
  strExt (by simp [strData_append])

/-- Appending the empty string is the identity. -/
theorem strAppend_empty (s : String) : s ++ "" = s :=
  strExt (by simp [strData_append])

/-- A list is a prefix of itself under the executable test. -/
theorem listIsPrefixOf_self (l : List Char) : l.isPrefixOf l = true := by
  induction l with
  | nil => rfl
  | cons c t ih => simp [List.isPrefixOf, ih]

/-- The occurrence test accepts a pattern placed at the end. -/
theorem listContains_append_self (pre pat : List Char) :
    listContains pat (pre ++ pat) = true := by
  induction pre with
  | nil =>
    cases pat with
    | nil => rfl
    | cons c t => simp [listContains, listIsPrefixOf_self]
  | cons c pre ih => simp [listContains, ih]

/-- An ends-with match is in particular an occurrence. -/
theorem listEndsWith_contains {pat l : List Char}
    (h : listEndsWith pat l = true) : listContains pat l = true := by
  unfold listEndsWith at h
  have hd : pat = l.drop (l.length - pat.length) := eq_of_beq h
  have hsplit := List.take_append_drop (l.length - pat.length) l
  calc listContains pat l
      = listContains pat
          (l.take (l.length - pat.length) ++ l.drop (l.length - pat.length)) := by
        rw [hsplit]
    _ = true := by rw [← hd]; exact listContains_append_self _ _

/-- C6: for every page state and every pattern of exceptions raised inside
challenge handling (detection probes, iframe entry, click attempts,
confirmation polling, inline-challenge waits), `handle_cloudflare_challenge`
returns normally — the outer handler converts every raise into a normal
return, so no exception ever propagates to its caller. -/
theorem challenge_handler_never_raises (p : ChallengePage) :
    handle_cloudflare_challenge p = Except.ok () := by
  unfold handle_cloudflare_challenge
  cases challengeBody p <;> rfl

/-- C8 counterexample: on a page whose `mouse.move` always raises, the
fallback direct move itself raises and that exception escapes
`simulate_human_mouse_movement` — refuting "no exception escapes the
simulator". -/
theorem mouse_sim_exception_escapes :
    simulate_human_mouse_movement cexMouseEnv = Except.error "page closed" := rfl

/-- C8 (amended): when the curved-path body fails, the simulator performs the
single direct fallback move and returns exactly its outcome; when the path
body succeeds, or the fallback move succeeds, no exception escapes. -/
theorem mouse_sim_fallback (env : MouseEnv) :
    (∀ e, simulateBody env = Except.error e →
      simulate_human_mouse_movement env = env.fallbackMove) ∧
    (simulateBody env = Except.ok () →
      simulate_human_mouse_movement env = Except.ok ()) ∧
    (env.fallbackMove = Except.ok () →
      simulate_human_mouse_movement env = Except.ok ()) := by
  refine ⟨?_, ?_, ?_⟩
  · intro e h
    unfold simulate_human_mouse_movement
    rw [h]
  · intro h
    unfold simulate_human_mouse_movement
    rw [h]
  · intro h
    unfold simulate_human_mouse_movement
    cases hb : simulateBody env with
    | ok a => rfl
    | error e => exact h

/-- C8 witness: a concrete environment where the path raises and the fallback
succeeds. -/
theorem mouse_sim_fallback_witness :
    simulate_human_mouse_movement wMouseEnv = wMouseEnv.fallbackMove ∧
    simulate_human_mouse_movement wMouseEnv = Except.ok () :=
  ⟨(mouse_sim_fallback wMouseEnv).1 "detached" rfl,
   (mouse_sim_fallback wMouseEnv).2.2 rfl⟩

/-- C7: when navigation succeeds and `check_login_status` reports an existing
session, `run` performs no challenge handling and no login, and goes straight
from the status check to cookie extraction; when extraction succeeds the
serialization step runs as well. -/
theorem run_skips_login_when_authenticated (env : RunEnv)
    (h1 : env.navigateRes = Except.ok ()) (h2 : env.loggedIn = true) :
    RunStep.challenge ∉ (runProc env).1 ∧ RunStep.login ∉ (runProc env).1 ∧
    (runProc env).1.take 3 =
      [RunStep.navigate, RunStep.checkLogin, RunStep.extract] ∧
    (∀ l, env.extractRes = Except.ok l → RunStep.saveFile ∈ (runProc env).1) := by
  have hform : runProc env =
      runExtractPhase env [RunStep.navigate, RunStep.checkLogin] := by
    unfold runProc
    rw [h1, h2]
    simp
  cases hx : env.extractRes with
  | error e =>
    have hres : (runProc env).1 =
        [RunStep.navigate, RunStep.checkLogin, RunStep.extract] := by
      rw [hform]; unfold runExtractPhase; rw [hx]; rfl
    refine ⟨?_, ?_, ?_, ?_⟩ <;> rw [hres]
    · decide
    · decide
    · rfl
    · intro l hl; simp at hl
  | ok l0 =>
    have hres : (runProc env).1 =
        [RunStep.navigate, RunStep.checkLogin, RunStep.extract, RunStep.saveFile] := by
      rw [hform]; unfold runExtractPhase; rw [hx]
      cases env.saveFileRes <;> rfl
    refine ⟨?_, ?_, ?_, ?_⟩ <;> rw [hres]
    · decide
    · decide
    · rfl
    · intro l _; decide

/-- C7 witness: a concrete authenticated environment. -/
theorem run_skips_login_when_authenticated_witness :
    RunStep.challenge ∉ (runProc wRunEnvAuth).1 ∧
    RunStep.login ∉ (runProc wRunEnvAuth).1 ∧
    (runProc wRunEnvAuth).1.take 3 =
      [RunStep.navigate, RunStep.checkLogin, RunStep.extract] ∧
    (∀ l, wRunEnvAuth.extractRes = Except.ok l →
      RunStep.saveFile ∈ (runProc wRunEnvAuth).1) :=
  run_skips_login_when_authenticated wRunEnvAuth rfl rfl

/-- C10: with no detected session and a missing username or password, `run`
raises the credentials error right after challenge handling, and neither
cookie extraction nor the bundle write happens. -/
theorem run_raises_without_credentials (env : RunEnv)
    (h1 : env.navigateRes = Except.ok ()) (h2 : env.loggedIn = false)
    (h3 : env.username = none ∨ env.password = none) :
    runProc env =
      ([RunStep.navigate, RunStep.checkLogin, RunStep.challenge],
        some "Login credentials required but not provided") ∧
    RunStep.extract ∉ (runProc env).1 ∧ RunStep.saveFile ∉ (runProc env).1 := by
  have hcred : (pyTruthy env.username && pyTruthy env.password) = false := by
    cases h3 with
    | inl h => rw [h]; rfl
    | inr h => rw [h]; simp [pyTruthy]
  have heq : runProc env =
      ([RunStep.navigate, RunStep.checkLogin, RunStep.challenge],
        some "Login credentials required but not provided") := by
    unfold runProc
    rw [h1, h2]
    simp [hcred]
  refine ⟨heq, ?_, ?_⟩ <;> rw [heq] <;> decide

/-- C10 witness: a concrete unauthenticated environment with no username. -/
theorem run_raises_without_credentials_witness :
    runProc wRunEnvNoCreds =
      ([RunStep.navigate, RunStep.checkLogin, RunStep.challenge],
        some "Login credentials required but not provided") ∧
    RunStep.extract ∉ (runProc wRunEnvNoCreds).1 ∧
    RunStep.saveFile ∉ (runProc wRunEnvNoCreds).1 :=
  run_raises_without_credentials wRunEnvNoCreds rfl rfl (Or.inl rfl)

/-- C5: in the automated verification pass, when no success marker was found
visible and the (lowercased) current URL contains `login`, the verification
raises the fatal login-verification error, and its message embeds the
offending URL. -/
theorem strict_verification_raises_on_login_url
    (probe : Nat → Except String Bool) (url : String)
    (h1 : anyVisibleFrom probe 0 12 = false)
    (h2 : strContains (pyLower url) "login" = true) :
    verifyLoginSuccess probe url =
      Except.error ("Login failed - still on login page: " ++ url) ∧
    strContains ("Login failed - still on login page: " ++ url) url = true := by
  constructor
  · unfold verifyLoginSuccess
    simp [h1, h2]
  · unfold strContains
    rw [strData_append]
    exact listContains_append_self _ _

/-- C5 witness: no marker visible and a login URL. -/
theorem strict_verification_raises_on_login_url_witness :
    verifyLoginSuccess (fun _ => Except.ok false) wVerifyUrl =
      Except.error ("Login failed - still on login page: " ++ wVerifyUrl) ∧
    strContains ("Login failed - still on login page: " ++ wVerifyUrl)
      wVerifyUrl = true :=
  strict_verification_raises_on_login_url (fun _ => Except.ok false) wVerifyUrl
    rfl (by decide)

/-- The indicator scan ignores an updated probe slot whose original probe
raised: a raising indicator behaves exactly like a non-matching one. -/
theorem anyVisibleFrom_update (probe : Nat → Except String Bool) (i : Nat)
    (e : String) (h : probe i = Except.error e) :
    ∀ n k, anyVisibleFrom (Function.update probe i (Except.ok false)) k n =
      anyVisibleFrom probe k n := by
  intro n
  induction n with
  | zero => intro k; rfl
  | succ n ih =>
    intro k
    by_cases hk : k = i
    · subst hk
      simp [anyVisibleFrom, Function.update_same, h, ih]
    · simp [anyVisibleFrom, Function.update_noteq hk, ih]

/-- C9: `check_login_status` is Bool-valued by construction (never raises);
an exception outside the indicator loop — the `page.url` read — makes it
return `False`, and an exception while probing one indicator makes that
indicator behave exactly like a non-matching one (the scan skips to the
next). -/
theorem check_login_status_total (p : LoginPage) :
    (∀ e, p.pageUrl = Except.error e → anyVisibleFrom p.probe 0 12 = false →
      check_login_status p = false) ∧
    (∀ i e, p.probe i = Except.error e →
      check_login_status p =
        check_login_status
          ⟨Function.update p.probe i (Except.ok false), p.pageUrl⟩) := by
  constructor
  · intro e h1 h2
    unfold check_login_status
    rw [h2, h1]
    rfl
  · intro i e h
    unfold check_login_status
    rw [anyVisibleFrom_update p.probe i e h]

/-- C9 witness: every probe and the URL read raise. -/
theorem check_login_status_total_witness :
    check_login_status wLoginPage = false ∧
    check_login_status wLoginPage =
      check_login_status
        ⟨Function.update wLoginPage.probe 0 (Except.ok false),
          wLoginPage.pageUrl⟩ :=
  ⟨(check_login_status_total wLoginPage).1 "no page" rfl rfl,
   (check_login_status_total wLoginPage).2 0 "boom" rfl⟩

/-- A successful submit search from index `k` lands on a qualifying candidate
within range, and every earlier candidate from `k` on is non-qualifying. -/
theorem findSubmitFrom_eq_some (p : SubmitPage) :
    ∀ n k i, findSubmitFrom p k n = some i →
      k ≤ i ∧ i < k + n ∧ submitQualifies p i ∧
        ∀ j, k ≤ j → j < i → ¬ submitQualifies p j := by
  intro n
  induction n with
  | zero => intro k i h; simp [findSubmitFrom] at h
  | succ n ih =>
    intro k i h
    unfold findSubmitFrom at h
    cases hp : p.probe k with
    | error e =>
      rw [hp] at h
      replace h : findSubmitFrom p (k + 1) n = some i := h
      obtain ⟨h1, h2, h3, h4⟩ := ih (k + 1) i h
      refine ⟨by omega, by omega, h3, ?_⟩
      intro j hj1 hj2
      rcases Nat.eq_or_lt_of_le hj1 with rfl | hj3
      · rintro ⟨info, hinfo, -, -⟩
        rw [hp] at hinfo
        cases hinfo
      · exact h4 j hj3 hj2
    | ok o =>
      rw [hp] at h
      cases o with
      | none =>
        replace h : findSubmitFrom p (k + 1) n = some i := h
        obtain ⟨h1, h2, h3, h4⟩ := ih (k + 1) i h
        refine ⟨by omega, by omega, h3, ?_⟩
        intro j hj1 hj2
        rcases Nat.eq_or_lt_of_le hj1 with rfl | hj3
        · rintro ⟨info, hinfo, -, -⟩
          rw [hp] at hinfo
          cases hinfo
        · exact h4 j hj3 hj2
      | some info =>
        replace h : (if (info.visible && !info.disabled) = true then some k
            else findSubmitFrom p (k + 1) n) = some i := h
        by_cases hvd : (info.visible && !info.disabled) = true
        · rw [if_pos hvd] at h
          injection h with h
          subst h
          rw [Bool.and_eq_true, Bool.not_eq_true'] at hvd
          exact ⟨Nat.le_refl _, by omega, ⟨info, hp, hvd.1, hvd.2⟩,
            fun j hj1 hj2 => by omega⟩
        · rw [if_neg hvd] at h
          obtain ⟨h1, h2, h3, h4⟩ := ih (k + 1) i h
          refine ⟨by omega, by omega, h3, ?_⟩
          intro j hj1 hj2
          rcases Nat.eq_or_lt_of_le hj1 with rfl | hj3
          · rintro ⟨info2, hinfo2, hv, hd⟩
            rw [hp] at hinfo2
            injection hinfo2 with hinfo2
            injection hinfo2 with hinfo2
            subst hinfo2
            exact hvd (by rw [hv, hd]; rfl)
          · exact h4 j hj3 hj2

/-- If a qualifying candidate exists in range, the search from `k` succeeds. -/
theorem findSubmitFrom_isSome (p : SubmitPage) :
    ∀ n k i, k ≤ i → i < k + n → submitQualifies p i →
      (findSubmitFrom p k n).isSome = true := by
  intro n
  induction n with
  | zero => intro k i h1 h2; omega
  | succ n ih =>
    intro k i h1 h2 hq
    unfold findSubmitFrom
    cases hp : p.probe k with
    | error e =>
      have hne : i ≠ k := by
        rintro rfl
        obtain ⟨info, hinfo, -, -⟩ := hq
        rw [hp] at hinfo
        cases hinfo
      exact ih (k + 1) i (by omega) (by omega) hq
    | ok o =>
      cases o with
      | none =>
        have hne : i ≠ k := by
          rintro rfl
          obtain ⟨info, hinfo, -, -⟩ := hq
          rw [hp] at hinfo
          cases hinfo
        exact ih (k + 1) i (by omega) (by omega) hq
      | some info =>
        show (if (info.visible && !info.disabled) = true then some k
            else findSubmitFrom p (k + 1) n).isSome = true
        by_cases hvd : (info.visible && !info.disabled) = true
        · rw [if_pos hvd]
          rfl
        · rw [if_neg hvd]
          have hne : i ≠ k := by
            rintro rfl
            obtain ⟨info2, hinfo2, hv, hd⟩ := hq
            rw [hp] at hinfo2
            injection hinfo2 with hinfo2
            injection hinfo2 with hinfo2
            subst hinfo2
            exact hvd (by rw [hv, hd]; rfl)
          exact ih (k + 1) i (by omega) (by omega) hq

/-- C4: the submit-button resolution returns the first candidate, in
`submit_selectors` order, that exists, is visible and not disabled — never a
later one — and whenever any in-range candidate qualifies the search does not
fail (it yields a candidate rather than raising `Submit button not found or
disabled`). -/
theorem submit_resolver_first_match (p : SubmitPage) :
    (∀ i, findSubmit p = some i →
      submitQualifies p i ∧ ∀ j, j < i → ¬ submitQualifies p j) ∧
    (∀ i, i < 7 → submitQualifies p i →
      ∃ k, submitSearch p = Except.ok k) := by
  constructor
  · intro i h
    obtain ⟨-, -, h3, h4⟩ := findSubmitFrom_eq_some p 7 0 i h
    exact ⟨h3, fun j hj => h4 j (Nat.zero_le j) hj⟩
  · intro i hi hq
    have hs := findSubmitFrom_isSome p 7 0 i (Nat.zero_le i) (by omega) hq
    obtain ⟨k, hk⟩ := Option.isSome_iff_exists.mp hs
    refine ⟨k, ?_⟩
    unfold submitSearch findSubmit
    rw [hk]

/-- C4 witness, spec scenario B: `button[type=submit]` (candidate 0) is
visible but disabled, candidate 1 matches nothing, and the text-based login
button (candidate 2) is visible and enabled; resolution selects candidate 2
and does not fail. -/
theorem submit_resolver_first_match_witness :
    (submitQualifies wSubmitPage 2 ∧
      ∀ j, j < 2 → ¬ submitQualifies wSubmitPage j) ∧
    ∃ k, submitSearch wSubmitPage = Except.ok k :=
  ⟨(submit_resolver_first_match wSubmitPage).1 2 rfl,
   (submit_resolver_first_match wSubmitPage).2 2 (by omega)
     ⟨⟨true, false⟩, rfl, rfl, rfl⟩⟩

/-- C2 counterexample: a cookie whose domain merely contains
`cloudflare.com` as an inner substring is returned by `extract_cookies`
although its domain does not end with the suffix — so the filter is not a
suffix match. -/
theorem extract_cookies_not_suffix_match :
    extractedList (extract_cookies (Except.ok [cexSubdomainCookie])) =
      [cexSubdomainCookie] ∧
    endsWithStr cexSubdomainCookie.domain "cloudflare.com" = false := by
  decide

/-- C2 (amended): `extract_cookies` keeps exactly the cookies whose domain
contains the substring `cloudflare.com`; in particular every cookie whose
domain ends with that suffix is kept. -/
theorem extract_cookies_domain_containment (l : List Cookie) :
    (∀ c, c ∈ extractedList (extract_cookies (Except.ok l)) →
      strContains c.domain "cloudflare.com" = true) ∧
    (∀ c, c ∈ l → strContains c.domain "cloudflare.com" = true →
      c ∈ extractedList (extract_cookies (Except.ok l))) ∧
    (∀ c, c ∈ l → endsWithStr c.domain "cloudflare.com" = true →
      c ∈ extractedList (extract_cookies (Except.ok l))) := by
  have hres : extractedList (extract_cookies (Except.ok l)) =
      l.filter isDomainMatch := rfl
  refine ⟨?_, ?_, ?_⟩
  · intro c hc
    rw [hres] at hc
    exact (List.mem_filter.mp hc).2
  · intro c hc hdom
    rw [hres]
    exact List.mem_filter.mpr ⟨hc, hdom⟩
  · intro c hc hend
    rw [hres]
    refine List.mem_filter.mpr ⟨hc, ?_⟩
    show strContains c.domain "cloudflare.com" = true
    unfold strContains
    unfold endsWithStr at hend
    exact listEndsWith_contains hend

/-- C2 witness: a concrete list with one suffix-matching cookie and one
foreign cookie. -/
theorem extract_cookies_domain_containment_witness :
    wCfCookie ∈ extractedList (extract_cookies (Except.ok wExtractList)) :=
  (extract_cookies_domain_containment wExtractList).2.2 wCfCookie
    (by decide) (by decide)

/-- The reference-lines write loop is the concatenation of one reference line
per cookie. -/
theorem foldl_refLines (l : List Cookie) :
    ∀ acc : String,
      l.foldl (fun a c => a ++ (refLine c ++ "\n")) acc =
        acc ++ joinAll (l.map (fun c => refLine c ++ "\n")) := by
  induction l with
  | nil => intro acc; simp [joinAll, strAppend_empty]
  | cons c l ih =>
    intro acc
    simp only [List.foldl_cons, List.map_cons, joinAll, ih, strAppend_assoc]

/-- The pair-accumulation loop appends, to its accumulator, one pair per
cookie with truthy name and value. -/
theorem foldl_pairs (l : List Cookie) :
    ∀ acc : List String,
      l.foldl (fun acc c =>
        if c.name ≠ "" ∧ c.value ≠ "" then acc ++ [c.name ++ "=" ++ c.value]
        else acc) acc =
      acc ++
        (l.filter (fun c => decide (c.name ≠ "") && decide (c.value ≠ ""))).map
          (fun c => c.name ++ "=" ++ c.value) := by
  induction l with
  | nil => intro acc; simp
  | cons c l ih =>
    intro acc
    by_cases hc : c.name ≠ "" ∧ c.value ≠ ""
    · have hb : (decide (c.name ≠ "") && decide (c.value ≠ "")) = true := by
        simp [hc.1, hc.2]
      simp only [List.foldl_cons, if_pos hc, ih, List.filter_cons, hb]
      simp
    · have hb : (decide (c.name ≠ "") && decide (c.value ≠ "")) = false := by
        cases hn : decide (c.name ≠ "") <;> cases hv : decide (c.value ≠ "") <;>
          simp_all
      simp only [List.foldl_cons, if_neg hc, ih, List.filter_cons, hb]
      simp

/-- The `cookie_pairs` loop computes exactly the pairs of the qualifying
cookies, in order. -/
theorem cookiePairsOf_eq (cs : List Cookie) :
    cookiePairsOf cs =
      (qualifyingCookies cs).map (fun c => c.name ++ "=" ++ c.value) := by
  unfold cookiePairsOf qualifyingCookies
  rw [foldl_pairs, List.nil_append, List.filter_filter]
  congr 1
  apply List.filter_congr
  intro a _
  unfold isQualifying
  rw [Bool.and_comm]

/-- C1 (amended): the serializer output is exactly the header lines, a blank
line, the `'; '`-joined pairs of the qualifying cookies — qualifying meaning
domain contains `cloudflare.com` AND non-empty name AND non-empty value — or
the no-cookies marker when none qualify, a blank line, the reference-section
header, and one annotated reference line for EVERY domain-matching cookie
(including non-qualifying ones), in extraction order. -/
theorem save_cookies_to_file_layout (ts : String) (cs : List Cookie) :
    save_cookies_to_file ts cs =
      "# Cloudflare Cookies - curl -b format\n" ++
        ("# Generated on: " ++ ts ++ "\n") ++
        "# Usage: curl -b \"$(cat cf-cookies.txt)\" https://dash.cloudflare.com/api/v4/graphql\n\n" ++
        (if qualifyingCookies cs = [] then "# No Cloudflare cookies found\n"
         else joinPairs
            ((qualifyingCookies cs).map (fun c => c.name ++ "=" ++ c.value)) ++
            "\n") ++
        "\n# Individual cookies (for reference):\n" ++
        joinAll ((domainCookies cs).map (fun c => refLine c ++ "\n")) := by
  unfold save_cookies_to_file domainCookies
  rw [foldl_refLines, cookiePairsOf_eq]
  by_cases hq : qualifyingCookies cs = []
  · rw [hq]
    simp [strAppend_assoc]
  · have hmap : (qualifyingCookies cs).map (fun c => c.name ++ "=" ++ c.value) ≠ [] := by
      simp [hq]
    rw [if_pos hmap, if_neg hq]
    simp [strAppend_assoc]

/-- C1 counterexample: with one domain-matching cookie whose value is empty
and one non-matching cookie with name and value, the written file differs
from the layout the claim describes (the code drops the foreign cookie from
the pairs line and still writes a reference line for the non-qualifying
one). -/
theorem save_cookies_layout_not_as_claimed :
    save_cookies_to_file "T" [cexEmptyValueCookie, cexForeignCookie] ≠
      claimC1Layout "T" [cexEmptyValueCookie, cexForeignCookie] := by
  decide

/-- `joinPairs` concatenates, at the character level, the chunk data with the
two-character separator. -/
theorem joinPairs_data :
    ∀ ps : List String, (joinPairs ps).data = joinSemi (ps.map String.data) := by
  intro ps
  induction ps with
  | nil => rfl
  | cons s rest ih =>
    cases rest with
    | nil => rfl
    | cons t rest2 =>
      show (s ++ "; " ++ joinPairs (t :: rest2)).data =
        s.data ++ ';' :: ' ' :: joinSemi ((t :: rest2).map String.data)
      rw [strData_append, strData_append, ih,
        show ("; " : String).data = [';', ' '] from rfl]
      simp [List.append_assoc]

/-- Splitting a chunk that does not contain the separator returns it whole. -/
theorem splitSemi_no_sep :
    ∀ l : List Char, hasSemiSep l = false → splitSemi l = [l] := by
  intro l
  induction l with
  | nil => intro _; rfl
  | cons c t ih =>
    cases t with
    | nil => intro _; rfl
    | cons d t2 =>
      intro h
      by_cases hcd : c = ';' ∧ d = ' '
      · exfalso
        rw [show hasSemiSep (c :: d :: t2) =
            if c = ';' ∧ d = ' ' then true else hasSemiSep (d :: t2) from rfl,
          if_pos hcd] at h
        simp at h
      · rw [show hasSemiSep (c :: d :: t2) =
            if c = ';' ∧ d = ' ' then true else hasSemiSep (d :: t2) from rfl,
          if_neg hcd] at h
        show (if c = ';' ∧ d = ' ' then [] :: splitSemi t2
          else consHead c (splitSemi (d :: t2))) = [c :: d :: t2]
        rw [if_neg hcd, ih h]
        rfl

/-- Splitting recognises the leftmost separator placed after a
separator-free chunk. -/
theorem splitSemi_sep_append :
    ∀ (p r : List Char), hasSemiSep p = false →
      splitSemi (p ++ ';' :: ' ' :: r) = p :: splitSemi r := by
  intro p
  induction p with
  | nil =>
    intro r _
    show (if (';' : Char) = ';' ∧ (' ' : Char) = ' ' then [] :: splitSemi r
      else consHead ';' (splitSemi (' ' :: r))) = [] :: splitSemi r
    rw [if_pos ⟨rfl, rfl⟩]
  | cons c p ih =>
    intro r h
    cases p with
    | nil =>
      have hcd : ¬ (c = ';' ∧ (';' : Char) = ' ') := by
        rintro ⟨-, h2⟩
        exact absurd h2 (by decide)
      show (if c = ';' ∧ (';' : Char) = ' ' then [] :: splitSemi (' ' :: r)
        else consHead c (splitSemi (';' :: ' ' :: r))) = [c] :: splitSemi r
      rw [if_neg hcd,
        show splitSemi (';' :: ' ' :: r) = [] :: splitSemi r from by
          show (if (';' : Char) = ';' ∧ (' ' : Char) = ' ' then [] :: splitSemi r
            else consHead ';' (splitSemi (' ' :: r))) = [] :: splitSemi r
          rw [if_pos ⟨rfl, rfl⟩]]
      rfl
    | cons d p2 =>
      by_cases hcd : c = ';' ∧ d = ' '
      · exfalso
        rw [show hasSemiSep (c :: d :: p2) =
            if c = ';' ∧ d = ' ' then true else hasSemiSep (d :: p2) from rfl,
          if_pos hcd] at h
        simp at h
      · have ht : hasSemiSep (d :: p2) = false := by
          rw [show hasSemiSep (c :: d :: p2) =
              if c = ';' ∧ d = ' ' then true else hasSemiSep (d :: p2) from rfl,
            if_neg hcd] at h
          exact h
        show (if c = ';' ∧ d = ' ' then [] :: splitSemi (p2 ++ ';' :: ' ' :: r)
          else consHead c (splitSemi ((d :: p2) ++ ';' :: ' ' :: r))) =
          (c :: d :: p2) :: splitSemi r
        rw [if_neg hcd, ih r ht]
        rfl

/-- Round trip of the separator-level split against the join, for non-empty
chunk lists whose chunks do not contain the separator. -/
theorem splitSemi_joinSemi :
    ∀ ps : List (List Char), ps ≠ [] → (∀ p ∈ ps, hasSemiSep p = false) →
      splitSemi (joinSemi ps) = ps := by
  intro ps
  induction ps with
  | nil => intro h _; exact absurd rfl h
  | cons p rest ih =>
    intro _ hall
    cases rest with
    | nil =>
      show splitSemi (joinSemi [p]) = [p]
      rw [show joinSemi [p] = p from rfl]
      exact splitSemi_no_sep p (hall p (by simp))
    | cons q rest2 =>
      rw [show joinSemi (p :: q :: rest2) =
          p ++ ';' :: ' ' :: joinSemi (q :: rest2) from rfl,
        splitSemi_sep_append p _ (hall p (by simp)),
        ih (by simp) (fun x hx => hall x (List.mem_cons_of_mem p hx))]

/-- The name-part of a chunk built as `name ++ "=" ++ value`, when the name
is free of `'='`. -/
theorem takeWhile_until_eq (v : List Char) :
    ∀ n : List Char, '=' ∉ n →
      (n ++ '=' :: v).takeWhile (fun c => !decide (c = '=')) = n := by
  intro n
  induction n with
  | nil =>
    intro _
    rw [List.nil_append, List.takeWhile_cons_of_neg (by simp)]
  | cons c n ih =>
    intro h
    rw [List.mem_cons] at h
    push_neg at h
    obtain ⟨h1, h2⟩ := h
    have hc : ¬ c = '=' := fun hh => h1 hh.symm
    rw [List.cons_append]
    simp [List.takeWhile_cons, hc, ih h2]

/-- The tail-part of a chunk built as `name ++ "=" ++ value`, when the name
is free of `'='`. -/
theorem dropWhile_until_eq (v : List Char) :
    ∀ n : List Char, '=' ∉ n →
      (n ++ '=' :: v).dropWhile (fun c => !decide (c = '=')) = '=' :: v := by
  intro n
  induction n with
  | nil =>
    intro _
    rw [List.nil_append, List.dropWhile_cons_of_neg (by simp)]
  | cons c n ih =>
    intro h
    rw [List.mem_cons] at h
    push_neg at h
    obtain ⟨h1, h2⟩ := h
    have hc : ¬ c = '=' := fun hh => h1 hh.symm
    rw [List.cons_append]
    simp [List.dropWhile_cons, hc, ih h2]

/-- Splitting at the first equals sign recovers name and value when the name
is `'='`-free. -/
theorem parsePairL_eq (n v : List Char) (h : '=' ∉ n) :
    parsePairL (n ++ '=' :: v) = (n, v) := by
  unfold parsePairL
  rw [takeWhile_until_eq v n h, dropWhile_until_eq v n h]
  rfl

/-- C3 (amended): serializing and then parsing the joined-pairs line
reproduces exactly the `(name, value)` pairs of the qualifying cookies, in
order, provided some cookie qualifies, no qualifying name contains `'='`, and
no qualifying `name=value` chunk contains the separator `"; "`. -/
theorem cookie_pairs_roundtrip (cs : List Cookie)
    (h1 : qualifyingCookies cs ≠ [])
    (h2 : ∀ c ∈ qualifyingCookies cs, '=' ∉ c.name.data ∧
      hasSemiSep (c.name.data ++ '=' :: c.value.data) = false) :
    parseCookieLine (joinPairs (cookiePairsOf cs)) =
      (qualifyingCookies cs).map (fun c => (c.name, c.value)) := by
  rw [cookiePairsOf_eq]
  unfold parseCookieLine
  rw [joinPairs_data, List.map_map]
  have hmap :
      (qualifyingCookies cs).map (String.data ∘ fun c => c.name ++ "=" ++ c.value)
        = (qualifyingCookies cs).map (fun c => c.name.data ++ '=' :: c.value.data) := by
    apply List.map_congr_left
    intro c _
    show (c.name ++ "=" ++ c.value).data = c.name.data ++ '=' :: c.value.data
    rw [strData_append, strData_append, show ("=" : String).data = ['='] from rfl]
    simp [List.append_assoc]
  rw [hmap,
    splitSemi_joinSemi _ (by simp [h1]) (fun p hp => by
      obtain ⟨c, hc, rfl⟩ := List.mem_map.mp hp
      exact (h2 c hc).2),
    List.map_map]
  apply List.map_congr_left
  intro c hc
  show (String.mk (parsePairL (c.name.data ++ '=' :: c.value.data)).1,
      String.mk (parsePairL (c.name.data ++ '=' :: c.value.data)).2) =
    (c.name, c.value)
  rw [parsePairL_eq _ _ (h2 c hc).1]

/-- C3 counterexample: a qualifying cookie whose value embeds the separator
and an equals sign parses back into two different pairs, so the round trip
fails without the separator restriction. -/
theorem cookie_pairs_roundtrip_fails :
    parseCookieLine (joinPairs (cookiePairsOf [cexSemiCookie])) ≠
      (qualifyingCookies [cexSemiCookie]).map (fun c => (c.name, c.value)) := by
  decide

/-- C3 witness: a realistic qualifying cookie round-trips. -/
theorem cookie_pairs_roundtrip_witness :
    parseCookieLine (joinPairs (cookiePairsOf [wRoundCookie])) =
      (qualifyingCookies [wRoundCookie]).map (fun c => (c.name, c.value)) :=
  cookie_pairs_roundtrip [wRoundCookie] (by decide) (by decide)
